import Mathlib

/-! Sessions resource model and the generated groups client.

A shallow embedding of `internal/sessions/session.go` and of
`api/groups/read.gen.go`.

Go pointers are addresses into an explicit heap, so that aliasing between a
session and its clone can be stated.  A Go `error` is a small tree recording
what `fmt.Errorf` rendered and which error it wraps.  A call either
returns (`Run.ok`) or is aborted by a panic (`Run.panic`).
-/

set_option linter.dupNamespace false

namespace Boundary

/-! ## Go errors -/

/-- A Go `error` value.  `sentinel` is a package-level error variable (such as
`db.ErrInvalidParameter`), identified by its qualified name; `leaf` is the
result of `fmt.Errorf` without a `%w` verb; `wrap pre inner` is the result of
`fmt.Errorf(".. %w", .., inner)`, where `pre` is the rendered text that
precedes the `%w` verb. -/
inductive GoError where
  | sentinel (name : String)
  | leaf (msg : String)
  | wrap (pre : String) (inner : GoError)
  deriving DecidableEq, Repr

namespace GoError

/-- The method `Error()`: the message of an error.  The text of a sentinel is
declared outside the embedded files, so it is supplied by `sentinelText`. -/
def Error (sentinelText : String → String) : GoError → String
  | sentinel name => sentinelText name
  | leaf msg => msg
  | wrap pre inner => pre ++ inner.Error sentinelText

/-- The function `errors.Is(err, target)`: `err` or an error in its `Unwrap`
chain is `target`.  Identity of error values is equality of their trees, which
is exact when `target` is a sentinel. -/
def Is : GoError → GoError → Bool
  | sentinel name, target => decide (sentinel name = target)
  | leaf msg, target => decide (leaf msg = target)
  | wrap pre inner, target => decide (wrap pre inner = target) || inner.Is target

end GoError

/-- The sentinel `db.ErrInvalidParameter`. -/
def ErrInvalidParameter : GoError := GoError.sentinel "db.ErrInvalidParameter"

/-- The operation types of package `db` passed to `VetForWrite`.  Only
`CreateOp` and `UpdateOp` are named by the embedded code; every other value of
the Go integer type is `otherOp`. -/
inductive OpType where
  | CreateOp
  | UpdateOp
  | otherOp (code : Nat)
  deriving DecidableEq, Repr

/-! ## The stored record and the heap -/

/-- A protobuf timestamp message, held by value in its owning record. -/
structure Timestamp where
  seconds : Int
  nanos : Int
  deriving DecidableEq, Repr

/-- Modelled from the spec: the declaration of the protobuf message
`store.Session` is missing.  The eleven string fields are the ones
`session.go` reads and writes; `CreateTime`, `UpdateTime` and `Version` are
the server-assigned timestamps and the version counter the spec gives every
resource. -/
structure StoreSession where
  PublicId : String
  UserId : String
  HostId : String
  ServerId : String
  ServerType : String
  TargetId : String
  SetId : String
  AuthTokenId : String
  ScopeId : String
  Address : String
  Port : String
  CreateTime : Option Timestamp
  UpdateTime : Option Timestamp
  Version : Nat
  deriving DecidableEq, Repr

/-- The zero value `store.Session{}`. -/
def StoreSession.zero : StoreSession :=
  { PublicId := "", UserId := "", HostId := "", ServerId := "", ServerType := "",
    TargetId := "", SetId := "", AuthTokenId := "", ScopeId := "", Address := "",
    Port := "", CreateTime := none, UpdateTime := none, Version := 0 }

/-- A Go pointer: `none` is `nil`, `some a` is the address `a`. -/
abbrev Ptr := Option Nat

/-- The Go struct `Session`: an embedded `*store.Session` and the unexported
`tableName`. -/
structure Session where
  Session : Ptr
  tableName : String
  deriving DecidableEq, Repr

/-- The heap: the allocated `store.Session` objects and the allocated `Session`
objects.  The address of an object is its position in its list. -/
structure Heap where
  stores : List StoreSession
  sessions : List Session
  deriving DecidableEq, Repr

/-- The heap with nothing allocated. -/
def Heap.empty : Heap := { stores := [], sessions := [] }

/-- The message of the run-time panic raised on a nil pointer dereference. -/
def nilDeref : String := "runtime error: invalid memory address or nil pointer dereference"

/-- A result of running Go code: the returned value, or the message of the
panic that aborted the call. -/
inductive Run (α : Type) where
  | ok (v : α)
  | panic (msg : String)
  deriving DecidableEq, Repr

/-- Allocates a `store.Session` object; returns its address. -/
def Heap.newStore (h : Heap) (r : StoreSession) : Nat × Heap :=
  (h.stores.length, { h with stores := h.stores ++ [r] })

/-- Allocates a `Session` object; returns its address. -/
def Heap.newSession (h : Heap) (s : Session) : Nat × Heap :=
  (h.sessions.length, { h with sessions := h.sessions ++ [s] })

/-- Dereferences a `*Session`. -/
def Heap.session (h : Heap) (s : Ptr) : Run Session :=
  match s with
  | none => .panic nilDeref
  | some a =>
    match h.sessions[a]? with
    | some v => .ok v
    | none => .panic nilDeref

/-- Dereferences a `*store.Session`. -/
def Heap.store (h : Heap) (p : Ptr) : Run StoreSession :=
  match p with
  | none => .panic nilDeref
  | some a =>
    match h.stores[a]? with
    | some v => .ok v
    | none => .panic nilDeref

/-- The stored record reached through a `*Session`: the promoted fields
`s.PublicId`, `s.UserId`, ... of the embedded pointer. -/
def Heap.record (h : Heap) (s : Ptr) : Run StoreSession :=
  match h.session s with
  | .panic e => .panic e
  | .ok v => h.store v.Session

/-! ## `internal/sessions/session.go` -/

/-- The constant `DefaultSessionTableName`. -/
def DefaultSessionTableName : String := "session"

/-- The body of `validateNewSession` once the record behind `s` is loaded: the
ten checks in source order. -/
def validateRecord (r : StoreSession) (errorPrefix : String) : Option GoError :=
  if r.UserId = "" then
    some (.wrap (errorPrefix ++ " missing user id: ") ErrInvalidParameter)
  else if r.HostId = "" then
    some (.wrap (errorPrefix ++ " missing host id: ") ErrInvalidParameter)
  else if r.ServerId = "" then
    some (.wrap (errorPrefix ++ " missing server id: ") ErrInvalidParameter)
  else if r.ServerType = "" then
    some (.wrap (errorPrefix ++ " missing server type: ") ErrInvalidParameter)
  else if r.TargetId = "" then
    some (.wrap (errorPrefix ++ " missing target id: ") ErrInvalidParameter)
  else if r.SetId = "" then
    some (.wrap (errorPrefix ++ " missing host set id: ") ErrInvalidParameter)
  else if r.AuthTokenId = "" then
    some (.wrap (errorPrefix ++ " missing auth token id: ") ErrInvalidParameter)
  else if r.ScopeId = "" then
    some (.wrap (errorPrefix ++ " missing scope id: ") ErrInvalidParameter)
  else if r.Address = "" then
    some (.wrap (errorPrefix ++ " missing address: ") ErrInvalidParameter)
  else if r.Port = "" then
    some (.wrap (errorPrefix ++ " missing port: ") ErrInvalidParameter)
  else
    none

/-- The function `validateNewSession(s, errorPrefix)`: checks everything but
the session's `PublicId`.  It only reads the heap. -/
def validateNewSession (h : Heap) (s : Ptr) (errorPrefix : String) : Run (Option GoError) :=
  match h.record s with
  | .panic e => .panic e
  | .ok r => .ok (validateRecord r errorPrefix)

/-- The function `NewSession`: allocates the stored record and the session,
validates, and returns `(&s, nil)` or `(nil, err)`.  The options are ignored by
the source. -/
def NewSession {O : Type} (h : Heap)
    (userId hostId serverId serverType targetId hostSetId authTokenId scopeId
      address port : String) (_opt : List O) : Run ((Ptr × Option GoError) × Heap) :=
  let (a, h1) := h.newStore
    { StoreSession.zero with
      UserId := userId, HostId := hostId, ServerId := serverId, ServerType := serverType,
      TargetId := targetId, SetId := hostSetId, AuthTokenId := authTokenId,
      ScopeId := scopeId, Address := address, Port := port }
  let (s, h2) := h1.newSession { Session := some a, tableName := "" }
  match validateNewSession h2 (some s) "new session:" with
  | .panic e => .panic e
  | .ok (some err) => .ok ((none, some err), h2)
  | .ok none => .ok ((some s, none), h2)

/-- The function `allocSession`: a `Session` value over a fresh zero record. -/
def allocSession (h : Heap) : Session × Heap :=
  let (a, h1) := h.newStore StoreSession.zero
  ({ Session := some a, tableName := "" }, h1)

/-- The library function `proto.Clone` at type `*store.Session`: a deep copy in
a freshly allocated message; a nil message is cloned to nil. -/
def protoClone (h : Heap) (p : Ptr) : Ptr × Heap :=
  match p with
  | none => (none, h)
  | some a =>
    match h.stores[a]? with
    | none => (none, h)
    | some r =>
      let (b, h1) := h.newStore r
      (some b, h1)

/-- The method `Clone`: a new `Session` holding `proto.Clone(s.Session)`; the
composite literal sets no other field. -/
def Clone (h : Heap) (s : Ptr) : Run (Ptr × Heap) :=
  match h.session s with
  | .panic e => .panic e
  | .ok v =>
    let (cp, h1) := protoClone h v.Session
    let (c, h2) := h1.newSession { Session := cp, tableName := "" }
    .ok (some c, h2)

/-- The method `VetForWrite`.  The context, the reader and the options are not
used by the source. -/
def VetForWrite {C R O : Type} (h : Heap) (s : Ptr) (_ctx : C) (_r : R) (opType : OpType)
    (_opt : List O) : Run (Option GoError × Heap) :=
  match h.record s with
  | .panic e => .panic e
  | .ok rec =>
    if rec.PublicId = "" then
      .ok (some (.wrap "session vet for write: missing public id: " ErrInvalidParameter), h)
    else
      match opType with
      | .CreateOp =>
        match validateNewSession h s "session vet for write:" with
        | .panic e => .panic e
        | .ok (some err) => .ok (some err, h)
        | .ok none => .ok (none, h)
      | .UpdateOp => .panic "not implemented"
      | .otherOp _ => .ok (none, h)

/-- The method `TableName`. -/
def TableName (h : Heap) (s : Ptr) : Run String :=
  match h.session s with
  | .panic e => .panic e
  | .ok v => if v.tableName ≠ "" then .ok v.tableName else .ok DefaultSessionTableName

/-- The method `SetTableName`: the assignment `s.tableName = n`. -/
def SetTableName (h : Heap) (s : Ptr) (n : String) : Run Heap :=
  match s with
  | none => .panic nilDeref
  | some a =>
    match h.sessions[a]? with
    | none => .panic nilDeref
    | some v => .ok { h with sessions := h.sessions.set a { v with tableName := n } }

/-! ## Assignments by a caller -/

/-- An assignment `x.F = v` to one field `F` of the stored record of a session
`x`, as a caller of the package writes it. -/
inductive FieldAssign where
  | PublicId (v : String)
  | UserId (v : String)
  | HostId (v : String)
  | ServerId (v : String)
  | ServerType (v : String)
  | TargetId (v : String)
  | SetId (v : String)
  | AuthTokenId (v : String)
  | ScopeId (v : String)
  | Address (v : String)
  | Port (v : String)
  | CreateTime (v : Option Timestamp)
  | UpdateTime (v : Option Timestamp)
  | Version (v : Nat)
  deriving DecidableEq, Repr

/-- The record after one field assignment. -/
def FieldAssign.apply (r : StoreSession) : FieldAssign → StoreSession
  | .PublicId v => { r with PublicId := v }
  | .UserId v => { r with UserId := v }
  | .HostId v => { r with HostId := v }
  | .ServerId v => { r with ServerId := v }
  | .ServerType v => { r with ServerType := v }
  | .TargetId v => { r with TargetId := v }
  | .SetId v => { r with SetId := v }
  | .AuthTokenId v => { r with AuthTokenId := v }
  | .ScopeId v => { r with ScopeId := v }
  | .Address v => { r with Address := v }
  | .Port v => { r with Port := v }
  | .CreateTime v => { r with CreateTime := v }
  | .UpdateTime v => { r with UpdateTime := v }
  | .Version v => { r with Version := v }

/-- The statement `s.F = v`: dereferences `s`, then the embedded pointer, and
writes the field. -/
def assign (h : Heap) (s : Ptr) (f : FieldAssign) : Run Heap :=
  match h.session s with
  | .panic e => .panic e
  | .ok v =>
    match v.Session with
    | none => .panic nilDeref
    | some b =>
      match h.stores[b]? with
      | none => .panic nilDeref
      | some r => .ok { h with stores := h.stores.set b (f.apply r) }

/-- A mutation of a session by a caller: a field assignment on its stored
record, or a call of `SetTableName`. -/
inductive Mutation where
  | assign (f : FieldAssign)
  | setTableName (n : String)
  deriving DecidableEq, Repr

/-- Runs one mutation on the session behind `s`. -/
def mutate (h : Heap) (s : Ptr) : Mutation → Run Heap
  | .assign f => assign h s f
  | .setTableName n => SetTableName h s n

/-- Runs a sequence of mutations on the session behind `s`, in order. -/
def mutateAll (h : Heap) (s : Ptr) : List Mutation → Run Heap
  | [] => .ok h
  | m :: ms =>
    match mutate h s m with
    | .panic e => .panic e
    | .ok h1 => mutateAll h1 s ms

/-! ## `api/groups/read.gen.go` -/

/-- An option of package `api`; `WithScopeId` is the only one the embedded code
builds. -/
inductive ApiOption where
  | WithScopeId (id : String)
  deriving DecidableEq, Repr

/-- The scope information of a group; only its `Id` is read. -/
structure ScopeInfo where
  Id : String
  deriving DecidableEq, Repr

/-- The Go struct `Group`, whose declaration is outside the embedded files.
`Client` is the `*api.Client` (`none` is nil) over a type `Cl` of clients;
`Scope` is held as a pointer, so that `s.Scope.Id` can fail on nil, and a
value-typed scope is the case `some`; `fields` stands for the remaining,
decoded fields. -/
structure Group (Cl F : Type) where
  Client : Option Cl
  Scope : Option ScopeInfo
  fields : F
  deriving DecidableEq, Repr

/-- The behaviour of package `api`, which is outside the embedded files, taken
as a parameter: `(*Client).NewRequest`, `(*Client).Do` and
`(*Response).Decode` into a new `Group` (its scope and remaining fields,
together with the decoded `*api.Error`). -/
structure Api (Cl Ctx Req Resp ApiErr F : Type) where
  NewRequest : Cl → Ctx → String → String → List ApiOption → Except GoError Req
  Do : Cl → Req → Except GoError Resp
  Decode : Resp → Except GoError ((Option ScopeInfo × F) × Option ApiErr)

/-- One invocation of a method of the client. -/
inductive ClientCall (Req : Type) where
  | NewRequest (method path : String) (opts : List ApiOption)
  | Do (req : Req)
  deriving DecidableEq, Repr

/-- What a call of `ReadGroup` leaves behind: the three returned values, the
invocations of the client it made, in order, and the final value of its
receiver `s`. -/
structure ReadGroupOut (Cl Req ApiErr F : Type) where
  group : Option (Group Cl F)
  apiErr : Option ApiErr
  err : Option GoError
  calls : List (ClientCall Req)
  receiver : Group Cl F
  deriving DecidableEq, Repr

/-- The method `ReadGroup`. -/
def ReadGroup {Cl Ctx Req Resp ApiErr F : Type} (api : Api Cl Ctx Req Resp ApiErr F)
    (s : Group Cl F) (ctx : Ctx) (id : String) : Run (ReadGroupOut Cl Req ApiErr F) :=
  if id = "" then
    .ok { group := none, apiErr := none,
          err := some (.leaf "empty ID value passed into ReadGroup request"),
          calls := [], receiver := s }
  else
    match s.Client with
    | none =>
      .ok { group := none, apiErr := none,
            err := some (.leaf "nil client in ReadGroup request"),
            calls := [], receiver := s }
    | some client =>
      match s.Scope with
      | none => .panic nilDeref
      | some scope =>
        let opts : List ApiOption :=
          if scope.Id ≠ "" then [] ++ [ApiOption.WithScopeId scope.Id] else []
        let path := "groups" ++ "/" ++ id
        match api.NewRequest client ctx "GET" path opts with
        | .error err =>
          .ok { group := none, apiErr := none,
                err := some (.wrap "error creating ReadGroup request: " err),
                calls := [.NewRequest "GET" path opts], receiver := s }
        | .ok req =>
          match api.Do client req with
          | .error err =>
            .ok { group := none, apiErr := none,
                  err := some
                    (.wrap "error performing client request during ReadGroup call: " err),
                  calls := [.NewRequest "GET" path opts, .Do req], receiver := s }
          | .ok resp =>
            match api.Decode resp with
            | .error err =>
              .ok { group := none, apiErr := none,
                    err := some (.wrap "error decoding ReadGroup repsonse: " err),
                    calls := [.NewRequest "GET" path opts, .Do req], receiver := s }
            | .ok (target, apiErr) =>
              .ok { group := some { Client := s.Client, Scope := target.1, fields := target.2 },
                    apiErr := apiErr, err := none,
                    calls := [.NewRequest "GET" path opts, .Do req], receiver := s }

/-- A package `api` over one-point types, whose every call succeeds. -/
def exampleApi : Api Unit Unit Unit Unit Unit Unit where
  NewRequest := fun _ _ _ _ _ => .ok ()
  Do := fun _ _ => .ok ()
  Decode := fun _ => .ok ((none, ()), none)

/-! ## Auxiliary definitions used by the statements -/

/-- The composite literal of `NewSession`, as a function of the ten arguments. -/
def newRecord (userId hostId serverId serverType targetId hostSetId authTokenId scopeId
    address port : String) : StoreSession :=
  { StoreSession.zero with
    UserId := userId, HostId := hostId, ServerId := serverId, ServerType := serverType,
    TargetId := targetId, SetId := hostSetId, AuthTokenId := authTokenId,
    ScopeId := scopeId, Address := address, Port := port }

/-- The heap after a record `r` and a session over it, with no table-name
override, have been allocated: what `NewSession` and `Clone` leave behind. -/
def newHeap (h : Heap) (r : StoreSession) : Heap :=
  { stores := h.stores ++ [r],
    sessions := h.sessions ++ [{ Session := some h.stores.length, tableName := "" }] }

/-- The ten required fields of a record, in the order in which the spec lists
them, each paired with the label the error message uses for it. -/
def requiredFields (r : StoreSession) : List (String × String) :=
  [(r.UserId, "user id"), (r.HostId, "host id"), (r.ServerId, "server id"),
   (r.ServerType, "server type"), (r.TargetId, "target id"), (r.SetId, "host set id"),
   (r.AuthTokenId, "auth token id"), (r.ScopeId, "scope id"), (r.Address, "address"),
   (r.Port, "port")]

/-- A record with a public id and all ten required fields set. -/
def exampleRecord : StoreSession :=
  { StoreSession.zero with
    PublicId := "s_1234567890", UserId := "u_1", HostId := "h_1", ServerId := "srv_1",
    ServerType := "worker", TargetId := "ttcp_1", SetId := "hsst_1", AuthTokenId := "at_1",
    ScopeId := "p_1", Address := "127.0.0.1", Port := "22" }

/-- A heap holding one session, at address `0`, over `exampleRecord`. -/
def exampleHeap : Heap :=
  { stores := [exampleRecord], sessions := [{ Session := some 0, tableName := "" }] }

/-! ## Heap lemmas -/

theorem record_eq (h : Heap) (a b : Nat) (v : Session) (r : StoreSession)
    (hv : h.sessions[a]? = some v) (hp : v.Session = some b) (hr : h.stores[b]? = some r) :
    h.record (some a) = .ok r := by
  simp [Heap.record, Heap.session, Heap.store, hv, hp, hr]

theorem record_inv (h : Heap) (s : Ptr) (r : StoreSession) (hs : h.record s = .ok r) :
    ∃ a b v, s = some a ∧ h.sessions[a]? = some v ∧ v.Session = some b ∧
      h.stores[b]? = some r := by
  unfold Heap.record Heap.session at hs
  cases s with
  | none => simp at hs
  | some a =>
    cases hv : h.sessions[a]? with
    | none => simp [hv] at hs
    | some v =>
      simp only [hv] at hs
      unfold Heap.store at hs
      cases hp : v.Session with
      | none => simp [hp] at hs
      | some b =>
        simp only [hp] at hs
        cases hr : h.stores[b]? with
        | none => simp [hr] at hs
        | some r' =>
          simp only [hr, Run.ok.injEq] at hs
          subst hs
          exact ⟨a, b, v, rfl, hv, hp, hr⟩

theorem session_inv (h : Heap) (s : Ptr) (v : Session) (hs : h.session s = .ok v) :
    ∃ a, s = some a ∧ h.sessions[a]? = some v := by
  unfold Heap.session at hs
  cases s with
  | none => simp at hs
  | some a =>
    cases hv : h.sessions[a]? with
    | none => simp [hv] at hs
    | some v' =>
      simp only [hv, Run.ok.injEq] at hs
      subst hs
      exact ⟨a, rfl, hv⟩

theorem validateNewSession_eq (h : Heap) (s : Ptr) (r : StoreSession) (p : String)
    (hs : h.record s = .ok r) : validateNewSession h s p = .ok (validateRecord r p) := by
  simp [validateNewSession, hs]

theorem newHeap_record (h : Heap) (r : StoreSession) :
    (newHeap h r).record (some h.sessions.length) = .ok r := by
  simp [newHeap, Heap.record, Heap.session, Heap.store]

theorem newHeap_session (h : Heap) (r : StoreSession) :
    (newHeap h r).session (some h.sessions.length) =
      .ok { Session := some h.stores.length, tableName := "" } := by
  simp [newHeap, Heap.session]

theorem NewSession_eq {O : Type} (h : Heap)
    (userId hostId serverId serverType targetId hostSetId authTokenId scopeId
      address port : String) (opt : List O) :
    NewSession h userId hostId serverId serverType targetId hostSetId authTokenId scopeId
        address port opt =
      match validateRecord (newRecord userId hostId serverId serverType targetId hostSetId
          authTokenId scopeId address port) "new session:" with
      | some err => .ok ((none, some err), newHeap h (newRecord userId hostId serverId
          serverType targetId hostSetId authTokenId scopeId address port))
      | none => .ok ((some h.sessions.length, none), newHeap h (newRecord userId hostId serverId
          serverType targetId hostSetId authTokenId scopeId address port)) := by
  have hv := validateNewSession_eq _ _ _ "new session:" (newHeap_record h (newRecord userId
    hostId serverId serverType targetId hostSetId authTokenId scopeId address port))
  simp only [NewSession, Heap.newStore, Heap.newSession]
  simp only [newHeap, newRecord] at hv ⊢
  rw [hv]
  cases validateRecord _ "new session:" <;> rfl

theorem validateRecord_first (r : StoreSession) (p : String) (i : Nat) (label : String)
    (hi : (requiredFields r)[i]? = some ("", label))
    (hbefore : ∀ j, j < i → ∀ v l, (requiredFields r)[j]? = some (v, l) → v ≠ "") :
    validateRecord r p = some (.wrap (p ++ " missing " ++ label ++ ": ") ErrInvalidParameter) := by
  have h0 : 0 < i → r.UserId ≠ "" := fun hlt => hbefore 0 hlt _ _ rfl
  have h1 : 1 < i → r.HostId ≠ "" := fun hlt => hbefore 1 hlt _ _ rfl
  have h2 : 2 < i → r.ServerId ≠ "" := fun hlt => hbefore 2 hlt _ _ rfl
  have h3 : 3 < i → r.ServerType ≠ "" := fun hlt => hbefore 3 hlt _ _ rfl
  have h4 : 4 < i → r.TargetId ≠ "" := fun hlt => hbefore 4 hlt _ _ rfl
  have h5 : 5 < i → r.SetId ≠ "" := fun hlt => hbefore 5 hlt _ _ rfl
  have h6 : 6 < i → r.AuthTokenId ≠ "" := fun hlt => hbefore 6 hlt _ _ rfl
  have h7 : 7 < i → r.ScopeId ≠ "" := fun hlt => hbefore 7 hlt _ _ rfl
  have h8 : 8 < i → r.Address ≠ "" := fun hlt => hbefore 8 hlt _ _ rfl
  have hlt : i < 10 := by
    by_contra hge
    have : (requiredFields r)[i]? = none := by
      apply List.getElem?_eq_none
      simp [requiredFields]; omega
    rw [this] at hi; cases hi
  clear hbefore
  interval_cases i <;> simp at h0 h1 h2 h3 h4 h5 h6 h7 h8 <;>
    simp [requiredFields] at hi <;> obtain ⟨hv, rfl⟩ := hi <;>
    unfold validateRecord <;> simp [*, String.append_assoc]

theorem validateRecord_is (r : StoreSession) (p : String) (e : GoError)
    (h : validateRecord r p = some e) : e.Is ErrInvalidParameter = true := by
  unfold validateRecord at h
  iterate 10 (split at h; · cases h; rfl)
  cases h

theorem validateRecord_none_iff (r : StoreSession) (p : String) :
    validateRecord r p = none ↔
      r.UserId ≠ "" ∧ r.HostId ≠ "" ∧ r.ServerId ≠ "" ∧ r.ServerType ≠ "" ∧ r.TargetId ≠ "" ∧
      r.SetId ≠ "" ∧ r.AuthTokenId ≠ "" ∧ r.ScopeId ≠ "" ∧ r.Address ≠ "" ∧ r.Port ≠ "" := by
  unfold validateRecord
  iterate 10 (split; · simp [*])
  simp [*]

theorem VetForWrite_create_eq {C R O : Type} (h : Heap) (s : Ptr) (r : StoreSession) (ctx : C)
    (rd : R) (opt : List O) (hs : h.record s = .ok r) :
    VetForWrite h s ctx rd .CreateOp opt =
      .ok (if r.PublicId = "" then
            some (.wrap "session vet for write: missing public id: " ErrInvalidParameter)
          else validateRecord r "session vet for write:", h) := by
  unfold VetForWrite
  simp only [hs, validateNewSession_eq h s r _ hs]
  by_cases hp : r.PublicId = ""
  · simp [hp]
  · simp only [hp, if_false]
    cases validateRecord r "session vet for write:" <;> rfl

/-! ## Creation validation -/

/-- C1: for every ten strings, `NewSession` returns an error if and only if at
least one of the ten is empty; a returned error wraps `db.ErrInvalidParameter`
and comes with a nil session, and when all ten are non-empty the session is
non-nil and the error is nil. -/
theorem NewSession_error_iff_some_empty {O : Type} (h : Heap)
    (userId hostId serverId serverType targetId hostSetId authTokenId scopeId
      address port : String) (opt : List O) :
    ∃ (res : Ptr) (err : Option GoError) (h' : Heap),
      NewSession h userId hostId serverId serverType targetId hostSetId authTokenId scopeId
        address port opt = .ok ((res, err), h') ∧
      (err ≠ none ↔
        (userId = "" ∨ hostId = "" ∨ serverId = "" ∨ serverType = "" ∨ targetId = "" ∨
          hostSetId = "" ∨ authTokenId = "" ∨ scopeId = "" ∨ address = "" ∨ port = "")) ∧
      (∀ e, err = some e → e.Is ErrInvalidParameter = true ∧ res = none) ∧
      (err = none → ∃ a v, res = some a ∧ h'.session res = .ok v) := by
  have hiff := validateRecord_none_iff (newRecord userId hostId serverId serverType targetId
    hostSetId authTokenId scopeId address port) "new session:"
  have his := validateRecord_is (newRecord userId hostId serverId serverType targetId
    hostSetId authTokenId scopeId address port) "new session:"
  rw [NewSession_eq]
  cases hv : validateRecord (newRecord userId hostId serverId serverType targetId
    hostSetId authTokenId scopeId address port) "new session:" with
  | none =>
    refine ⟨some h.sessions.length, none, _, rfl, ?_, ?_, ?_⟩
    · have := hiff.mp hv
      simp only [newRecord] at this
      simp only [ne_eq, not_true_eq_false, false_iff]
      tauto
    · intro e he; cases he
    · intro _
      exact ⟨_, _, rfl, newHeap_session h _⟩
  | some e =>
    refine ⟨none, some e, _, rfl, ?_, ?_, ?_⟩
    · have hne : ¬ validateRecord (newRecord userId hostId serverId serverType targetId
          hostSetId authTokenId scopeId address port) "new session:" = none := by
        rw [hv]; simp
      rw [hiff] at hne
      simp only [newRecord] at hne
      simp only [ne_eq, reduceCtorEq, not_false_eq_true, true_iff]
      tauto
    · intro e' he'
      cases he'
      exact ⟨his e hv, rfl⟩
    · intro he; cases he

/-- C2: when the field at position `i` of the fixed order is empty and every
earlier field is non-empty, `validateNewSession` returns the error whose text is
the prefix followed by " missing ", the label of that field and the wrapped
`db.ErrInvalidParameter`; nothing is assumed about the later fields, so any
session that agrees on the fields up to position `i` gets the same error, and
`NewSession` on the same ten values reports the same field. -/
theorem validateNewSession_names_first_missing (h : Heap) (s : Ptr) (r : StoreSession)
    (errorPrefix : String) (i : Nat) (label : String)
    (hs : h.record s = .ok r)
    (hi : (requiredFields r)[i]? = some ("", label))
    (hbefore : ∀ j, j < i → ∀ v l, (requiredFields r)[j]? = some (v, l) → v ≠ "") :
    validateNewSession h s errorPrefix =
        .ok (some (.wrap (errorPrefix ++ " missing " ++ label ++ ": ") ErrInvalidParameter)) ∧
      (∀ sentinelText : String → String,
        (GoError.wrap (errorPrefix ++ " missing " ++ label ++ ": ") ErrInvalidParameter).Error
            sentinelText =
          errorPrefix ++ " missing " ++ label ++ ": " ++ sentinelText "db.ErrInvalidParameter") ∧
      (∀ (h' : Heap) (s' : Ptr) (r' : StoreSession), h'.record s' = .ok r' →
        (∀ j, j ≤ i → (requiredFields r')[j]? = (requiredFields r)[j]?) →
        validateNewSession h' s' errorPrefix = validateNewSession h s errorPrefix) ∧
      (∀ (O : Type) (h0 : Heap) (opt : List O), ∃ h1,
        NewSession h0 r.UserId r.HostId r.ServerId r.ServerType r.TargetId r.SetId
            r.AuthTokenId r.ScopeId r.Address r.Port opt =
          .ok ((none, some (.wrap ("new session:" ++ " missing " ++ label ++ ": ")
            ErrInvalidParameter)), h1)) := by
  have hmain := validateRecord_first r errorPrefix i label hi hbefore
  refine ⟨?_, ?_, ?_, ?_⟩
  · rw [validateNewSession_eq h s r _ hs, hmain]
  · intro st
    simp [GoError.Error, ErrInvalidParameter]
  · intro h' s' r' hs' hagree
    rw [validateNewSession_eq h s r _ hs, validateNewSession_eq h' s' r' _ hs', hmain]
    congr 1
    apply validateRecord_first r' errorPrefix i label
    · rw [hagree i (le_refl i)]; exact hi
    · intro j hj v l hjv
      rw [hagree j (le_of_lt hj)] at hjv
      exact hbefore j hj v l hjv
  · intro O h0 opt
    have hr : newRecord r.UserId r.HostId r.ServerId r.ServerType r.TargetId r.SetId
        r.AuthTokenId r.ScopeId r.Address r.Port =
        { r with PublicId := "", CreateTime := none, UpdateTime := none, Version := 0 } := rfl
    have hnew := validateRecord_first
      { r with PublicId := "", CreateTime := none, UpdateTime := none, Version := 0 }
      "new session:" i label hi hbefore
    rw [NewSession_eq, hr, hnew]
    exact ⟨_, rfl⟩

/-- The witness of C2: a session whose server type is the first empty field. -/
theorem validateNewSession_names_first_missing_witness :
    (({ stores := [{ exampleRecord with ServerType := "", Address := "" }],
        sessions := [{ Session := some 0, tableName := "" }] } : Heap).record (some 0) =
        .ok { exampleRecord with ServerType := "", Address := "" }) ∧
      validateNewSession
          { stores := [{ exampleRecord with ServerType := "", Address := "" }],
            sessions := [{ Session := some 0, tableName := "" }] } (some 0) "new session:" =
        .ok (some (.wrap ("new session:" ++ " missing " ++ "server type" ++ ": ")
          ErrInvalidParameter)) :=
  ⟨by decide,
   (validateNewSession_names_first_missing
      { stores := [{ exampleRecord with ServerType := "", Address := "" }],
        sessions := [{ Session := some 0, tableName := "" }] } (some 0)
      { exampleRecord with ServerType := "", Address := "" } "new session:" 3 "server type"
      (by decide) (by decide)
      (by
        intro j hj v l hjv
        interval_cases j <;> simp [requiredFields, exampleRecord] at hjv <;>
          obtain ⟨rfl, _⟩ := hjv <;> decide)).1⟩

/-- C3: for a session with a stored record, `VetForWrite` with `CreateOp`
returns nil exactly when the public id and the ten required fields are all
non-empty; otherwise it returns an error that wraps `db.ErrInvalidParameter`;
the heap, and so the session, is returned unchanged. -/
theorem VetForWrite_create_nil_iff {C R O : Type} (h : Heap) (s : Ptr) (r : StoreSession)
    (ctx : C) (rd : R) (opt : List O) (hs : h.record s = .ok r) :
    ∃ res : Option GoError,
      VetForWrite h s ctx rd .CreateOp opt = .ok (res, h) ∧
      (res = none ↔
        r.PublicId ≠ "" ∧ r.UserId ≠ "" ∧ r.HostId ≠ "" ∧ r.ServerId ≠ "" ∧
          r.ServerType ≠ "" ∧ r.TargetId ≠ "" ∧ r.SetId ≠ "" ∧ r.AuthTokenId ≠ "" ∧
          r.ScopeId ≠ "" ∧ r.Address ≠ "" ∧ r.Port ≠ "") ∧
      (∀ e, res = some e → e.Is ErrInvalidParameter = true) := by
  refine ⟨_, VetForWrite_create_eq h s r ctx rd opt hs, ?_, ?_⟩
  · by_cases hp : r.PublicId = ""
    · simp [hp]
    · simp only [hp, if_false, ne_eq, not_false_eq_true, true_and]
      exact validateRecord_none_iff r _
  · intro e he
    by_cases hp : r.PublicId = ""
    · simp only [hp, if_true, Option.some.injEq] at he
      subst he; rfl
    · simp only [hp, if_false] at he
      exact validateRecord_is r _ e he

/-- The witness of C3: the example session passes creation validation. -/
theorem VetForWrite_create_nil_iff_witness :
    exampleHeap.record (some 0) = .ok exampleRecord ∧
      ∃ res : Option GoError,
        VetForWrite exampleHeap (some 0) () () .CreateOp ([] : List Unit) =
          .ok (res, exampleHeap) ∧
        (res = none ↔
          exampleRecord.PublicId ≠ "" ∧ exampleRecord.UserId ≠ "" ∧
            exampleRecord.HostId ≠ "" ∧ exampleRecord.ServerId ≠ "" ∧
            exampleRecord.ServerType ≠ "" ∧ exampleRecord.TargetId ≠ "" ∧
            exampleRecord.SetId ≠ "" ∧ exampleRecord.AuthTokenId ≠ "" ∧
            exampleRecord.ScopeId ≠ "" ∧ exampleRecord.Address ≠ "" ∧
            exampleRecord.Port ≠ "") ∧
        (∀ e, res = some e → e.Is ErrInvalidParameter = true) :=
  ⟨by decide,
   VetForWrite_create_nil_iff exampleHeap (some 0) exampleRecord () () [] (by decide)⟩

/-! ## Table name -/

theorem SetTableName_eq (h : Heap) (a : Nat) (v : Session) (n : String)
    (hv : h.sessions[a]? = some v) :
    SetTableName h (some a) n =
      .ok { h with sessions := h.sessions.set a { v with tableName := n } } := by
  simp [SetTableName, hv]

theorem lt_of_getElem?_eq_some {α : Type} (l : List α) (a : Nat) (v : α)
    (hv : l[a]? = some v) : a < l.length := by
  by_contra hge
  rw [List.getElem?_eq_none (by omega)] at hv
  cases hv

/-- C4: for a live session, whatever override it carries, after
`SetTableName(n)` the method `TableName` returns `n` when `n` is non-empty and
the default "session" when `n` is empty; a freshly allocated session returns
the default. -/
theorem TableName_after_SetTableName (h : Heap) (s : Ptr) (v : Session) (n : String)
    (hs : h.session s = .ok v) :
    (∃ h', SetTableName h s n = .ok h' ∧
      TableName h' s = .ok (if n = "" then DefaultSessionTableName else n)) ∧
      DefaultSessionTableName = "session" ∧
      (∀ h0 : Heap,
        TableName ((allocSession h0).2.newSession (allocSession h0).1).2
          (some ((allocSession h0).2.newSession (allocSession h0).1).1) =
          .ok DefaultSessionTableName) := by
  obtain ⟨a, rfl, hv⟩ := session_inv h s v hs
  have hlt : a < h.sessions.length := lt_of_getElem?_eq_some _ a v hv
  refine ⟨⟨_, SetTableName_eq h a v n hv, ?_⟩, rfl, ?_⟩
  · by_cases hn : n = "" <;> simp [TableName, Heap.session, hlt, hn]
  · intro h0
    simp [TableName, Heap.session, allocSession, Heap.newSession, Heap.newStore]

/-- The witness of C4: renaming the table of the example session. -/
theorem TableName_after_SetTableName_witness :
    exampleHeap.session (some 0) = .ok { Session := some 0, tableName := "" } ∧
      ∃ h', SetTableName exampleHeap (some 0) "session_test" = .ok h' ∧
        TableName h' (some 0) = .ok "session_test" :=
  ⟨by decide,
   (TableName_after_SetTableName exampleHeap (some 0) { Session := some 0, tableName := "" }
      "session_test" (by decide)).1⟩

/-! ## Clone -/

theorem protoClone_sessions (h : Heap) (p : Ptr) : (protoClone h p).2.sessions = h.sessions := by
  unfold protoClone
  cases p with
  | none => rfl
  | some a => cases hr : h.stores[a]? <;> simp [hr, Heap.newStore]

theorem Clone_eq (h : Heap) (a : Nat) (v : Session) (hv : h.sessions[a]? = some v) :
    Clone h (some a) =
      .ok (some h.sessions.length,
        { stores := (protoClone h v.Session).2.stores,
          sessions := h.sessions ++ [{ Session := (protoClone h v.Session).1, tableName := "" }] }) := by
  simp [Clone, Heap.session, hv, Heap.newSession, protoClone_sessions]

theorem Clone_eq_newHeap (h : Heap) (a b : Nat) (v : Session) (r : StoreSession)
    (hv : h.sessions[a]? = some v) (hp : v.Session = some b) (hr : h.stores[b]? = some r) :
    Clone h (some a) = .ok (some h.sessions.length, newHeap h r) := by
  rw [Clone_eq h a v hv, hp]
  simp [protoClone, hr, Heap.newStore, newHeap]

theorem mutate_frame (A B : Nat) (m : Mutation) (g : Heap) (w : Session)
    (hw : g.sessions[A]? = some w) (hp : w.Session = some B) (hB : B < g.stores.length) :
    ∃ g', mutate g (some A) m = .ok g' ∧
      (∀ q, q ≠ A → g'.sessions[q]? = g.sessions[q]?) ∧
      (∀ p, p ≠ B → g'.stores[p]? = g.stores[p]?) ∧
      (∃ w', g'.sessions[A]? = some w' ∧ w'.Session = some B) ∧ B < g'.stores.length := by
  have hA := lt_of_getElem?_eq_some _ A w hw
  cases m with
  | assign f =>
    obtain ⟨r, hr⟩ : ∃ r, g.stores[B]? = some r := ⟨g.stores[B], by simp [hB]⟩
    refine ⟨{ g with stores := g.stores.set B (f.apply r) }, ?_, ?_, ?_, ?_, ?_⟩
    · simp [mutate, assign, Heap.session, hw, hp, hr]
    · intro q _; rfl
    · intro p hpB
      simp [List.getElem?_set, Ne.symm hpB]
    · exact ⟨w, hw, hp⟩
    · simpa using hB
  | setTableName n =>
    refine ⟨{ g with sessions := g.sessions.set A { w with tableName := n } }, ?_, ?_, ?_, ?_, ?_⟩
    · simp [mutate, SetTableName_eq g A w n hw]
    · intro q hq
      simp [List.getElem?_set, Ne.symm hq]
    · intro p _; rfl
    · exact ⟨{ w with tableName := n }, by simp [hA], hp⟩
    · exact hB

theorem mutateAll_frame (A B : Nat) (ms : List Mutation) : ∀ (g : Heap) (w : Session),
    g.sessions[A]? = some w → w.Session = some B → B < g.stores.length →
    ∃ g', mutateAll g (some A) ms = .ok g' ∧
      (∀ q, q ≠ A → g'.sessions[q]? = g.sessions[q]?) ∧
      (∀ p, p ≠ B → g'.stores[p]? = g.stores[p]?) ∧
      (∃ w', g'.sessions[A]? = some w' ∧ w'.Session = some B) ∧ B < g'.stores.length := by
  induction ms with
  | nil =>
    intro g w hw hp hB
    exact ⟨g, rfl, fun _ _ => rfl, fun _ _ => rfl, ⟨w, hw, hp⟩, hB⟩
  | cons m ms ih =>
    intro g w hw hp hB
    obtain ⟨g1, hm, hs1, hr1, ⟨w1, hw1, hp1⟩, hB1⟩ := mutate_frame A B m g w hw hp hB
    obtain ⟨g2, hm2, hs2, hr2, hw2, hB2⟩ := ih g1 w1 hw1 hp1 hB1
    refine ⟨g2, ?_, ?_, ?_, hw2, hB2⟩
    · simp [mutateAll, hm, hm2]
    · intro q hq; rw [hs2 q hq, hs1 q hq]
    · intro p hpB; rw [hr2 p hpB, hr1 p hpB]

theorem newHeap_old_session (h : Heap) (r : StoreSession) (a : Nat) (v : Session)
    (hv : h.sessions[a]? = some v) : (newHeap h r).sessions[a]? = some v := by
  have hlt := lt_of_getElem?_eq_some _ a v hv
  simp only [newHeap]
  rw [List.getElem?_append_left hlt]
  exact hv

theorem newHeap_old_store (h : Heap) (r : StoreSession) (b : Nat) (r0 : StoreSession)
    (hr : h.stores[b]? = some r0) : (newHeap h r).stores[b]? = some r0 := by
  have hlt := lt_of_getElem?_eq_some _ b r0 hr
  simp only [newHeap]
  rw [List.getElem?_append_left hlt]
  exact hr

theorem TableName_congr (g g' : Heap) (a : Nat) (hs : g'.sessions[a]? = g.sessions[a]?) :
    TableName g' (some a) = TableName g (some a) := by
  simp [TableName, Heap.session, hs]

theorem SetTableName_TableName (h : Heap) (a : Nat) (v : Session) (n : String)
    (hv : h.sessions[a]? = some v) :
    ∃ h1 w, SetTableName h (some a) n = .ok h1 ∧ h1.sessions[a]? = some w ∧
      TableName h1 (some a) = .ok (if n = "" then DefaultSessionTableName else n) := by
  have hlt : a < h.sessions.length := lt_of_getElem?_eq_some _ a v hv
  refine ⟨_, { v with tableName := n }, SetTableName_eq h a v n hv, by simp [hlt], ?_⟩
  by_cases hn : n = "" <;> simp [TableName, Heap.session, hlt, hn]

theorem Clone_TableName (g : Heap) (a : Nat) (w : Session) (hw : g.sessions[a]? = some w) :
    ∃ c g2, Clone g (some a) = .ok (c, g2) ∧
      TableName g2 c = .ok DefaultSessionTableName ∧
      TableName g2 (some a) = TableName g (some a) := by
  have hlt : a < g.sessions.length := lt_of_getElem?_eq_some _ a w hw
  refine ⟨_, _, Clone_eq g a w hw, ?_, ?_⟩
  · simp [TableName, Heap.session]
  · apply TableName_congr
    exact List.getElem?_append_left hlt

/-- C5: for a session with a stored record, `Clone` returns a session whose
stored record is equal, field for field, to the stored record of the original,
which is itself still in place. -/
theorem Clone_record_eq (h : Heap) (s : Ptr) (r : StoreSession) (hs : h.record s = .ok r) :
    ∃ (c : Ptr) (h' : Heap), Clone h s = .ok (c, h') ∧
      h'.record c = .ok r ∧ h'.record s = .ok r := by
  obtain ⟨a, b, v, rfl, hv, hp, hr⟩ := record_inv h s r hs
  refine ⟨_, _, Clone_eq_newHeap h a b v r hv hp hr, newHeap_record h r, ?_⟩
  exact record_eq _ a b v r (newHeap_old_session h r a v hv) hp (newHeap_old_store h r b r hr)

/-- The witness of C5: cloning the example session. -/
theorem Clone_record_eq_witness :
    exampleHeap.record (some 0) = .ok exampleRecord ∧
      ∃ (c : Ptr) (h' : Heap), Clone exampleHeap (some 0) = .ok (c, h') ∧
        h'.record c = .ok exampleRecord ∧ h'.record (some 0) = .ok exampleRecord :=
  ⟨by decide, Clone_record_eq exampleHeap (some 0) exampleRecord (by decide)⟩

/-- C6 fails as stated: after `SetTableName("session_test")` the original
reports "session_test" while its clone reports the default "session". -/
theorem Clone_TableName_differs :
    SetTableName exampleHeap (some 0) "session_test" =
        .ok { stores := [exampleRecord],
              sessions := [{ Session := some 0, tableName := "session_test" }] } ∧
      Clone { stores := [exampleRecord],
              sessions := [{ Session := some 0, tableName := "session_test" }] } (some 0) =
        .ok (some 1,
          { stores := [exampleRecord, exampleRecord],
            sessions := [{ Session := some 0, tableName := "session_test" },
                         { Session := some 1, tableName := "" }] }) ∧
      TableName { stores := [exampleRecord, exampleRecord],
                  sessions := [{ Session := some 0, tableName := "session_test" },
                               { Session := some 1, tableName := "" }] } (some 0) =
        .ok "session_test" ∧
      TableName { stores := [exampleRecord, exampleRecord],
                  sessions := [{ Session := some 0, tableName := "session_test" },
                               { Session := some 1, tableName := "" }] } (some 1) =
        .ok "session" := by
  refine ⟨by decide, by decide, by decide, by decide⟩

/-- C6, amended: `Clone` copies the stored record only.  For a live session and
every string `n`, after `SetTableName(n)` the clone reports the default table
name "session", so it reports the same table name as the original exactly when
`n` is empty or is "session" itself. -/
theorem Clone_TableName_default (h : Heap) (s : Ptr) (v : Session) (n : String)
    (hs : h.session s = .ok v) :
    ∃ (h1 : Heap) (c : Ptr) (h2 : Heap),
      SetTableName h s n = .ok h1 ∧ Clone h1 s = .ok (c, h2) ∧
      TableName h2 c = .ok DefaultSessionTableName ∧
      TableName h2 s = .ok (if n = "" then DefaultSessionTableName else n) ∧
      (TableName h2 c = TableName h2 s ↔ n = "" ∨ n = DefaultSessionTableName) := by
  obtain ⟨a, rfl, hv⟩ := session_inv h s v hs
  obtain ⟨h1, w, hset, hw, hname⟩ := SetTableName_TableName h a v n hv
  obtain ⟨c, h2, hclone, hc, hso⟩ := Clone_TableName h1 a w hw
  refine ⟨h1, c, h2, hset, hclone, hc, hso.trans hname, ?_⟩
  rw [hc, hso, hname]
  by_cases hn : n = ""
  · simp [hn]
  · simp only [hn, if_false, Run.ok.injEq, false_or]
    exact eq_comm

/-- The witness of C6, amended: the example session renamed to "session_test". -/
theorem Clone_TableName_default_witness :
    exampleHeap.session (some 0) = .ok { Session := some 0, tableName := "" } ∧
      ∃ (h1 : Heap) (c : Ptr) (h2 : Heap),
        SetTableName exampleHeap (some 0) "session_test" = .ok h1 ∧
        Clone h1 (some 0) = .ok (c, h2) ∧
        TableName h2 c = .ok DefaultSessionTableName ∧
        TableName h2 (some 0) =
          .ok (if "session_test" = "" then DefaultSessionTableName else "session_test") ∧
        (TableName h2 c = TableName h2 (some 0) ↔
          "session_test" = "" ∨ "session_test" = DefaultSessionTableName) :=
  ⟨by decide,
   Clone_TableName_default exampleHeap (some 0) { Session := some 0, tableName := "" }
     "session_test" (by decide)⟩

theorem newHeap_new_session (h : Heap) (r : StoreSession) :
    (newHeap h r).sessions[h.sessions.length]? =
      some { Session := some h.stores.length, tableName := "" } := by
  simp [newHeap]

theorem newHeap_new_store (h : Heap) (r : StoreSession) :
    (newHeap h r).stores[h.stores.length]? = some r := by
  simp [newHeap]

/-- C7: the clone `c` of a session `s` with a stored record holds a freshly
allocated stored record, at an address that did not exist before and differs
from the one `s` holds.  Any sequence of field assignments and `SetTableName`
calls on `c` runs to completion and leaves the stored record and the table name
of `s` as they were, and any such sequence on `s` leaves those of `c` as they
were. -/
theorem Clone_independent (h : Heap) (s : Ptr) (r : StoreSession) (hs : h.record s = .ok r) :
    ∃ (c : Ptr) (h1 : Heap), Clone h s = .ok (c, h1) ∧
      (∃ a b A B v w, s = some a ∧ c = some A ∧ a ≠ A ∧ b ≠ B ∧
        h1.session s = .ok v ∧ v.Session = some b ∧
        h1.session c = .ok w ∧ w.Session = some B ∧
        h.stores.length ≤ B ∧ h.sessions.length ≤ A) ∧
      (∀ ms : List Mutation, ∃ h2, mutateAll h1 c ms = .ok h2 ∧
        h2.record s = .ok r ∧ TableName h2 s = TableName h s) ∧
      (∀ ms : List Mutation, ∃ h2, mutateAll h1 s ms = .ok h2 ∧
        h2.record c = .ok r ∧ TableName h2 c = TableName h1 c) := by
  obtain ⟨a, b, v, rfl, hv, hp, hr⟩ := record_inv h s r hs
  have ha : a < h.sessions.length := lt_of_getElem?_eq_some _ a v hv
  have hb : b < h.stores.length := lt_of_getElem?_eq_some _ b r hr
  have hv1 := newHeap_old_session h r a v hv
  have hr1 := newHeap_old_store h r b r hr
  have hw1 := newHeap_new_session h r
  have hn1 := newHeap_new_store h r
  have hlen : (newHeap h r).stores.length = h.stores.length + 1 := by simp [newHeap]
  refine ⟨_, _, Clone_eq_newHeap h a b v r hv hp hr, ?_, ?_, ?_⟩
  · refine ⟨a, b, h.sessions.length, h.stores.length, v, _, rfl, rfl, by omega, by omega,
      ?_, hp, newHeap_session h r, rfl, le_refl _, le_refl _⟩
    simp [Heap.session, hv1]
  · intro ms
    obtain ⟨h2, hm, hsess, hstore, _, _⟩ := mutateAll_frame h.sessions.length h.stores.length
      ms (newHeap h r) _ hw1 rfl (by omega)
    have hv2 : h2.sessions[a]? = some v := by rw [hsess a (by omega)]; exact hv1
    have hr2 : h2.stores[b]? = some r := by rw [hstore b (by omega)]; exact hr1
    exact ⟨h2, hm, record_eq h2 a b v r hv2 hp hr2,
      TableName_congr h h2 a (hv2.trans hv.symm)⟩
  · intro ms
    obtain ⟨h2, hm, hsess, hstore, _, _⟩ := mutateAll_frame a b ms (newHeap h r) v hv1 hp
      (by omega)
    have hw2 : h2.sessions[h.sessions.length]? =
        some { Session := some h.stores.length, tableName := "" } := by
      rw [hsess _ (by omega)]; exact hw1
    have hn2 : h2.stores[h.stores.length]? = some r := by
      rw [hstore _ (by omega)]; exact hn1
    exact ⟨h2, hm, record_eq h2 _ _ _ r hw2 rfl hn2,
      TableName_congr (newHeap h r) h2 _ (hw2.trans hw1.symm)⟩

/-- The witness of C7: the example session and its clone. -/
theorem Clone_independent_witness :
    exampleHeap.record (some 0) = .ok exampleRecord ∧
      ∃ (c : Ptr) (h1 : Heap), Clone exampleHeap (some 0) = .ok (c, h1) ∧
        (∀ ms : List Mutation, ∃ h2, mutateAll h1 c ms = .ok h2 ∧
          h2.record (some 0) = .ok exampleRecord ∧
          TableName h2 (some 0) = TableName exampleHeap (some 0)) ∧
        (∀ ms : List Mutation, ∃ h2, mutateAll h1 (some 0) ms = .ok h2 ∧
          h2.record c = .ok exampleRecord ∧ TableName h2 c = TableName h1 c) :=
  ⟨by decide,
   match Clone_independent exampleHeap (some 0) exampleRecord (by decide) with
   | ⟨c, h1, hc, _, hl, hr⟩ => ⟨c, h1, hc, hl, hr⟩⟩

/-! ## Validation for writing -/

/-- C8 fails as stated: on a session with a non-empty public id, `VetForWrite`
with `UpdateOp` does not return; it panics with "not implemented". -/
theorem VetForWrite_update_panics :
    VetForWrite exampleHeap (some 0) () () .UpdateOp ([] : List Unit) =
      .panic "not implemented" := by
  decide

/-- C8, amended: for a session with a stored record, `VetForWrite` with
`CreateOp` returns normally with nil or an error wrapping
`db.ErrInvalidParameter`; with `UpdateOp` and an empty public id it returns the
"missing public id" error wrapping `db.ErrInvalidParameter`; with `UpdateOp`
and a non-empty public id it panics with "not implemented". -/
theorem VetForWrite_total_on_create {C R O : Type} (h : Heap) (s : Ptr) (r : StoreSession)
    (ctx : C) (rd : R) (opt : List O) (hs : h.record s = .ok r) :
    (∃ res : Option GoError, VetForWrite h s ctx rd .CreateOp opt = .ok (res, h) ∧
      (res = none ∨ ∃ e, res = some e ∧ e.Is ErrInvalidParameter = true)) ∧
    (r.PublicId = "" →
      VetForWrite h s ctx rd .UpdateOp opt =
        .ok (some (.wrap "session vet for write: missing public id: " ErrInvalidParameter), h) ∧
      (GoError.wrap "session vet for write: missing public id: " ErrInvalidParameter).Is
        ErrInvalidParameter = true) ∧
    (r.PublicId ≠ "" → VetForWrite h s ctx rd .UpdateOp opt = .panic "not implemented") := by
  refine ⟨⟨_, VetForWrite_create_eq h s r ctx rd opt hs, ?_⟩, ?_, ?_⟩
  · by_cases hp : r.PublicId = ""
    · right
      exact ⟨.wrap "session vet for write: missing public id: " ErrInvalidParameter,
        by simp [hp], rfl⟩
    · simp only [hp, if_false]
      cases hv : validateRecord r "session vet for write:" with
      | none => left; rfl
      | some e => right; exact ⟨e, rfl, validateRecord_is r _ e hv⟩
  · intro hp
    exact ⟨by simp [VetForWrite, hs, hp], rfl⟩
  · intro hp
    simp [VetForWrite, hs, hp]

/-- The witness of C8, amended: the example session. -/
theorem VetForWrite_total_on_create_witness :
    exampleHeap.record (some 0) = .ok exampleRecord ∧
      ∃ res : Option GoError,
        VetForWrite exampleHeap (some 0) () () .CreateOp ([] : List Unit) =
          .ok (res, exampleHeap) ∧
        (res = none ∨ ∃ e, res = some e ∧ e.Is ErrInvalidParameter = true) :=
  ⟨by decide,
   (VetForWrite_total_on_create exampleHeap (some 0) exampleRecord () () [] (by decide)).1⟩

theorem assign_eq (h : Heap) (a b : Nat) (v : Session) (r : StoreSession) (f : FieldAssign)
    (hv : h.sessions[a]? = some v) (hp : v.Session = some b) (hr : h.stores[b]? = some r) :
    assign h (some a) f = .ok { h with stores := h.stores.set b (f.apply r) } := by
  simp [assign, Heap.session, hv, hp, hr]

/-- C9: for ten non-empty strings, `NewSession` returns a session whose stored
record carries the ten arguments in the corresponding fields and an empty
public id, and which reports the table name "session"; `VetForWrite` with
`CreateOp` on it returns the "missing public id" error, and returns nil once
any non-empty public id has been assigned. -/
theorem NewSession_fields {C R O P : Type} (h : Heap)
    (userId hostId serverId serverType targetId hostSetId authTokenId scopeId
      address port : String) (opt : List O) (ctx : C) (rd : R) (vopt : List P)
    (hne : userId ≠ "" ∧ hostId ≠ "" ∧ serverId ≠ "" ∧ serverType ≠ "" ∧ targetId ≠ "" ∧
      hostSetId ≠ "" ∧ authTokenId ≠ "" ∧ scopeId ≠ "" ∧ address ≠ "" ∧ port ≠ "") :
    ∃ (a : Nat) (h1 : Heap) (r : StoreSession),
      NewSession h userId hostId serverId serverType targetId hostSetId authTokenId scopeId
        address port opt = .ok ((some a, none), h1) ∧
      h1.record (some a) = .ok r ∧
      r.UserId = userId ∧ r.HostId = hostId ∧ r.ServerId = serverId ∧
      r.ServerType = serverType ∧ r.TargetId = targetId ∧ r.SetId = hostSetId ∧
      r.AuthTokenId = authTokenId ∧ r.ScopeId = scopeId ∧ r.Address = address ∧
      r.Port = port ∧ r.PublicId = "" ∧
      TableName h1 (some a) = .ok "session" ∧
      VetForWrite h1 (some a) ctx rd .CreateOp vopt =
        .ok (some (.wrap "session vet for write: missing public id: " ErrInvalidParameter),
          h1) ∧
      (∀ id : String, id ≠ "" → ∃ h2,
        assign h1 (some a) (.PublicId id) = .ok h2 ∧
        VetForWrite h2 (some a) ctx rd .CreateOp vopt = .ok (none, h2)) := by
  have hnone : ∀ pre, validateRecord (newRecord userId hostId serverId serverType targetId
      hostSetId authTokenId scopeId address port) pre = none := by
    intro pre
    rw [validateRecord_none_iff]
    exact hne
  have hrec := newHeap_record h (newRecord userId hostId serverId serverType targetId
    hostSetId authTokenId scopeId address port)
  refine ⟨h.sessions.length, _, _, ?_, hrec, rfl, rfl, rfl, rfl, rfl, rfl, rfl, rfl, rfl, rfl,
    rfl, ?_, ?_, ?_⟩
  · rw [NewSession_eq, hnone]
  · simp [TableName, newHeap_session, DefaultSessionTableName]
  · rw [VetForWrite_create_eq _ _ _ ctx rd vopt hrec]
    rfl
  · intro id hid
    have hassign := assign_eq _ h.sessions.length h.stores.length _ _ (.PublicId id)
      (newHeap_new_session h (newRecord userId hostId serverId serverType targetId
        hostSetId authTokenId scopeId address port)) rfl (newHeap_new_store h _)
    refine ⟨_, hassign, ?_⟩
    have hrec2 : Heap.record
        { newHeap h (newRecord userId hostId serverId serverType targetId hostSetId
            authTokenId scopeId address port) with
          stores := (newHeap h (newRecord userId hostId serverId serverType targetId
            hostSetId authTokenId scopeId address port)).stores.set h.stores.length
              ((FieldAssign.PublicId id).apply (newRecord userId hostId serverId serverType
                targetId hostSetId authTokenId scopeId address port)) }
        (some h.sessions.length) =
        .ok ((FieldAssign.PublicId id).apply (newRecord userId hostId serverId serverType
          targetId hostSetId authTokenId scopeId address port)) := by
      refine record_eq _ h.sessions.length h.stores.length
        { Session := some h.stores.length, tableName := "" } _ ?_ rfl ?_
      · exact newHeap_new_session h (newRecord userId hostId serverId serverType targetId
          hostSetId authTokenId scopeId address port)
      · simp [newHeap]
    rw [VetForWrite_create_eq _ _ _ ctx rd vopt hrec2]
    have hv : validateRecord ((FieldAssign.PublicId id).apply (newRecord userId hostId
        serverId serverType targetId hostSetId authTokenId scopeId address port))
        "session vet for write:" = none := by
      rw [validateRecord_none_iff]
      exact hne
    simp only [hv]
    simp [FieldAssign.apply, hid]

/-- The witness of C9: a session made from ten non-empty strings. -/
theorem NewSession_fields_witness :
    ∃ (a : Nat) (h1 : Heap) (r : StoreSession),
      NewSession Heap.empty "u_1" "h_1" "srv_1" "worker" "ttcp_1" "hsst_1" "at_1" "p_1"
        "127.0.0.1" "22" ([] : List Unit) = .ok ((some a, none), h1) ∧
      h1.record (some a) = .ok r ∧ r.PublicId = "" ∧
      TableName h1 (some a) = .ok "session" ∧
      VetForWrite h1 (some a) () () .CreateOp ([] : List Unit) =
        .ok (some (.wrap "session vet for write: missing public id: " ErrInvalidParameter),
          h1) :=
  match NewSession_fields Heap.empty "u_1" "h_1" "srv_1" "worker" "ttcp_1" "hsst_1" "at_1"
      "p_1" "127.0.0.1" "22" ([] : List Unit) () () ([] : List Unit) (by decide) with
  | ⟨a, h1, r, hn, hr, _, _, _, _, _, _, _, _, _, _, hp, ht, hv, _⟩ =>
    ⟨a, h1, r, hn, hr, hp, ht, hv⟩

/-! ## Reading a group -/

/-- C10: `ReadGroup` with the empty id returns `(nil, nil, err)` with the
message "empty ID value passed into ReadGroup request" whatever the client is,
and with a non-empty id and a nil client it returns `(nil, nil, err)` with the
message "nil client in ReadGroup request"; in both cases no method of the
client is invoked and the receiver is as it was. -/
theorem ReadGroup_rejects_bad_input {Cl Ctx Req Resp ApiErr F : Type}
    (api : Api Cl Ctx Req Resp ApiErr F) (s : Group Cl F) (ctx : Ctx) (id : String) :
    ReadGroup api s ctx "" =
        .ok { group := none, apiErr := none,
              err := some (.leaf "empty ID value passed into ReadGroup request"),
              calls := [], receiver := s } ∧
      (id ≠ "" → s.Client = none →
        ReadGroup api s ctx id =
          .ok { group := none, apiErr := none,
                err := some (.leaf "nil client in ReadGroup request"),
                calls := [], receiver := s }) ∧
      (∀ (sentinelText : String → String) (msg : String),
        (GoError.leaf msg).Error sentinelText = msg) := by
  refine ⟨by simp [ReadGroup], ?_, fun _ _ => rfl⟩
  intro hid hcl
  simp [ReadGroup, hid, hcl]

/-- The witness of C10: a group without a client asked for the id "g_1". -/
theorem ReadGroup_rejects_bad_input_witness :
    ("g_1" : String) ≠ "" ∧
      ReadGroup exampleApi { Client := none, Scope := none, fields := () } () "g_1" =
        .ok { group := none, apiErr := none,
              err := some (.leaf "nil client in ReadGroup request"),
              calls := [], receiver := { Client := none, Scope := none, fields := () } } :=
  ⟨by decide,
   (ReadGroup_rejects_bad_input exampleApi { Client := none, Scope := none, fields := () } ()
      "g_1").2.1 (by decide) rfl⟩

end Boundary
